import Mathlib

/-!
# vsphere/provider.go

A shallow embedding of the provider bootstrap of the vSphere Terraform
provider: the schema table declared by `Provider` and the configuration step
`providerConfigure`, followed by the properties proved about them.

Conventions of the embedding.

* A Go `interface{}` value returned by `d.Get` is a `Value`; a type assertion
  `.(string)` or `.(bool)` on it either yields the payload or fails (a Go
  run-time panic), which is the `none` outcome of an `Exec` computation.
* `providerConfigure` is run in `Exec`, which threads a `Trace`: the ordered
  log of the `d.Get(k).(T)` reads performed and of the `Config` values on
  which `Config.Client` was invoked.
* `Config.Client` lives in the client part of the repository; it is a
  parameter `client` of `providerConfigure`, a total function from the
  assembled `Config` to the pair (handle, error) it returns.
-/

namespace vsphere

/-! ## Values and schema declarations -/

/-- The value types of `helper/schema` that a field declaration may carry
(the members `TypeFloat`, `TypeList`, `TypeMap` and `TypeSet` are not used by
this provider and are left out). -/
inductive ValueType where
  | TypeInvalid
  | TypeBool
  | TypeInt
  | TypeString
  deriving DecidableEq, Repr

/-- A dynamically typed Go value (`interface{}`) as handled by the schema
layer: `nil`, a `bool`, an `int` or a `string`. -/
inductive Value where
  | nil
  | bool (b : Bool)
  | int (i : Int)
  | str (s : String)
  deriving DecidableEq, Repr

/-- The type assertion `v.(string)`: `none` when it fails. -/
def Value.assertString : Value → Option String
  | .str s => some s
  | _ => none

/-- The type assertion `v.(bool)`: `none` when it fails. -/
def Value.assertBool : Value → Option Bool
  | .bool b => some b
  | _ => none

/-- Whether a value is of the given declared schema type. -/
def Value.hasType : Value → ValueType → Bool
  | .bool _, .TypeBool => true
  | .int _, .TypeInt => true
  | .str _, .TypeString => true
  | _, _ => false

/-- The default function built by the call `schema.EnvDefaultFunc(k, dv)`,
kept as the two arguments of the call: the environment variable consulted
and the fallback value. -/
structure SchemaDefaultFunc where
  k : String
  dv : Value
  deriving DecidableEq, Repr

/-- The call `schema.EnvDefaultFunc(k, dv)`. -/
def EnvDefaultFunc (k : String) (dv : Value) : SchemaDefaultFunc :=
  { k := k, dv := dv }

/-- A field declaration, `schema.Schema`, with the members this provider
sets (`Type_` is the member `Type`, a reserved word here); an unset member
has the Go zero value. -/
structure Schema where
  Type_ : ValueType := .TypeInvalid
  Optional : Bool := false
  Required : Bool := false
  DefaultFunc : Option SchemaDefaultFunc := none
  Description : String := ""
  Deprecated : String := ""
  deriving DecidableEq, Repr

/-- The provider declaration, `schema.Provider`: the schema map as an
association list in source order, and the keys of the resource and data
source maps (their constructors are defined elsewhere in the package). -/
structure SchemaProvider where
  Schema : List (String × Schema)
  ResourcesMap : List String
  DataSourcesMap : List String
  deriving Repr

/-- The function `Provider` of provider.go. -/
def Provider : SchemaProvider :=
  { Schema := [
      ("user",
        { Type_ := .TypeString
          Required := true
          DefaultFunc := some (EnvDefaultFunc "VSPHERE_USER" .nil)
          Description := "The user name for vSphere API operations." }),
      ("password",
        { Type_ := .TypeString
          Required := true
          DefaultFunc := some (EnvDefaultFunc "VSPHERE_PASSWORD" .nil)
          Description := "The user password for vSphere API operations." }),
      ("vsphere_server",
        { Type_ := .TypeString
          Optional := true
          DefaultFunc := some (EnvDefaultFunc "VSPHERE_SERVER" .nil)
          Description := "The vSphere Server name for vSphere API operations." }),
      ("allow_unverified_ssl",
        { Type_ := .TypeBool
          Optional := true
          DefaultFunc := some (EnvDefaultFunc "VSPHERE_ALLOW_UNVERIFIED_SSL" (.bool false))
          Description := "If set, VMware vSphere client will permit unverifiable SSL certificates." }),
      ("vcenter_server",
        { Type_ := .TypeString
          Optional := true
          DefaultFunc := some (EnvDefaultFunc "VSPHERE_VCENTER" .nil)
          Deprecated := "This field has been renamed to vsphere_server." }),
      ("client_debug",
        { Type_ := .TypeBool
          Optional := true
          DefaultFunc := some (EnvDefaultFunc "VSPHERE_CLIENT_DEBUG" (.bool false))
          Description := "govomomi debug" }),
      ("client_debug_path_run",
        { Type_ := .TypeString
          Optional := true
          DefaultFunc := some (EnvDefaultFunc "VSPHERE_CLIENT_DEBUG_PATH_RUN" (.str ""))
          Description := "govomomi debug path for a single run" }),
      ("client_debug_path",
        { Type_ := .TypeString
          Optional := true
          DefaultFunc := some (EnvDefaultFunc "VSPHERE_CLIENT_DEBUG_PATH" (.str ""))
          Description := "govomomi debug path for debug" })
    ]
    ResourcesMap := [
      "vsphere_datacenter",
      "vsphere_file",
      "vsphere_folder",
      "vsphere_host_port_group",
      "vsphere_host_virtual_switch",
      "vsphere_license",
      "vsphere_virtual_disk",
      "vsphere_virtual_machine",
      "vsphere_nas_datastore",
      "vsphere_vmfs_datastore",
      "vsphere_virtual_machine_snapshot"
    ]
    DataSourcesMap := [
      "vsphere_datacenter",
      "vsphere_host",
      "vsphere_vmfs_disks"
    ] }

/-! ## The configuration step -/

/-- The connection parameters handed to the client library: the struct
`Config`, with the seven members that the composite literal in
`providerConfigure` sets. -/
structure Config where
  User : String
  Password : String
  InsecureFlag : Bool
  VSphereServer : String
  Debug : Bool
  DebugPathRun : String
  DebugPath : String
  deriving DecidableEq, Repr

/-- The configuration reader, `*schema.ResourceData`, as far as
`providerConfigure` uses it: the method `Get`. -/
structure ResourceData where
  Get : String → Value

/-- What a run has done so far: the reads `d.Get(k).(T)` it performed, each
with the asserted type, and the configurations on which `Config.Client` was
invoked, both in execution order. -/
structure Trace where
  reads : List (String × ValueType) := []
  calls : List Config := []
  deriving DecidableEq, Repr

/-- A traced computation that may stop on a failed type assertion: it maps
the trace so far to the trace afterwards and the value computed, `none`
standing for the run-time panic. -/
def Exec (α : Type) : Type := Trace → Trace × Option α

/-- Returning a value leaves the trace as it is. -/
def Exec.pure {α : Type} (a : α) : Exec α :=
  fun t => (t, some a)

/-- Sequencing: a panic in the first computation ends the run. -/
def Exec.bind {α β : Type} (m : Exec α) (f : α → Exec β) : Exec β :=
  fun t =>
    match m t with
    | (t1, some a) => f a t1
    | (t1, none) => (t1, none)

instance : Monad Exec where
  pure := Exec.pure
  bind := Exec.bind

/-- The read `d.Get(k).(string)`. -/
def getString (d : ResourceData) (k : String) : Exec String :=
  fun t => ({ t with reads := t.reads ++ [(k, ValueType.TypeString)] }, (d.Get k).assertString)

/-- The read `d.Get(k).(bool)`. -/
def getBool (d : ResourceData) (k : String) : Exec Bool :=
  fun t => ({ t with reads := t.reads ++ [(k, ValueType.TypeBool)] }, (d.Get k).assertBool)

/-- The call `config.Client()`, logged in the trace. -/
def callClient {H : Type} (client : Config → Option H × Option String) (config : Config) :
    Exec (Option H × Option String) :=
  fun t => ({ t with calls := t.calls ++ [config] }, some (client config))

/-- The message of the one error that `providerConfigure` creates itself. -/
def serverMissingMessage : String :=
  "One of vsphere_server or [deprecated] vcenter_server must be provided."

/-- The function `providerConfigure` of provider.go. The result is the pair
(`interface{}`, `error`) it returns, `none` being `nil` in either place; an
error is represented by its message. -/
def providerConfigure {H : Type} (client : Config → Option H × Option String)
    (d : ResourceData) : Exec (Option H × Option String) := do
  let server ← getString d "vsphere_server"
  let server ← if server = "" then getString d "vcenter_server" else pure server
  if server = "" then
    pure (none, some serverMissingMessage)
  else do
    let user ← getString d "user"
    let password ← getString d "password"
    let insecureFlag ← getBool d "allow_unverified_ssl"
    let debug ← getBool d "client_debug"
    let debugPathRun ← getString d "client_debug_path_run"
    let debugPath ← getString d "client_debug_path"
    let config : Config :=
      { User := user
        Password := password
        InsecureFlag := insecureFlag
        VSphereServer := server
        Debug := debug
        DebugPathRun := debugPathRun
        DebugPath := debugPath }
    callClient client config

/-- A complete run of `providerConfigure` from the empty trace. -/
def runConfigure {H : Type} (client : Config → Option H × Option String)
    (d : ResourceData) : Trace × Option (Option H × Option String) :=
  providerConfigure client d {}

/-! ## Well-typed readers and sample configurations -/

/-- The lookup `Provider().Schema[k]`. -/
def schemaOf (k : String) : Option Schema :=
  Provider.Schema.lookup k

/-- A reader is well typed when, for every field that the schema declares,
`Get` returns a value of the declared type (what the schema layer does for
the fields of its own schema). -/
def WellTyped (d : ResourceData) : Prop :=
  ∀ p ∈ Provider.Schema, (d.Get p.1).hasType p.2.Type_ = true

/-- The server fields both read as the empty string. -/
def BothServersEmpty (d : ResourceData) : Prop :=
  d.Get "vsphere_server" = .str "" ∧ d.Get "vcenter_server" = .str ""

/-- A reader given by a finite table; a key outside the table reads as
`nil`. -/
def ResourceData.ofList (l : List (String × Value)) : ResourceData :=
  { Get := fun k => (l.lookup k).getD .nil }

/-- A sample configuration with the given two server fields. -/
def sampleData (vsphereServer vcenterServer : String) : ResourceData :=
  ResourceData.ofList [
    ("user", .str "root"),
    ("password", .str "secret"),
    ("vsphere_server", .str vsphereServer),
    ("allow_unverified_ssl", .bool true),
    ("vcenter_server", .str vcenterServer),
    ("client_debug", .bool false),
    ("client_debug_path_run", .str "/tmp/run"),
    ("client_debug_path", .str "/tmp/debug")]

/-- The `Config` that `providerConfigure` assembles from `sampleData` when
the resolved server is `server`. -/
def sampleConfig (server : String) : Config :=
  { User := "root"
    Password := "secret"
    InsecureFlag := true
    VSphereServer := server
    Debug := false
    DebugPathRun := "/tmp/run"
    DebugPath := "/tmp/debug" }

/-- A sample client library: it hands out a handle numbered by the length of
the server address and reports no error. -/
def sampleClient (c : Config) : Option Nat × Option String :=
  (some c.VSphereServer.length, none)

/-- A client library that refuses every connection. -/
def failingClient (_ : Config) : Option Nat × Option String :=
  (none, some "ServerFaultCode: Cannot complete login due to an incorrect user name or password.")

/-- The reads of the six fields that follow the server check. -/
def restReads : List (String × ValueType) :=
  [("user", .TypeString), ("password", .TypeString), ("allow_unverified_ssl", .TypeBool),
   ("client_debug", .TypeBool), ("client_debug_path_run", .TypeString),
   ("client_debug_path", .TypeString)]

/-! ## Trace invariants -/

/-- A computation preserves a property of traces. -/
def Preserves {α : Type} (I : Trace → Prop) (m : Exec α) : Prop :=
  ∀ t, I t → I (m t).1

/-- Every logged call carries a non-empty server address. -/
def CallsHaveServer (t : Trace) : Prop :=
  ∀ cfg ∈ t.calls, cfg.VSphereServer ≠ ""

/-- Every logged read is of a declared field at its declared type. -/
def ReadsDeclared (t : Trace) : Prop :=
  ∀ r ∈ t.reads, ∃ sch, schemaOf r.1 = some sch ∧ sch.Type_ = r.2

/-! ## Evaluation lemmas -/

theorem bind_eq {α β : Type} (m : Exec α) (f : α → Exec β) : (m >>= f) = Exec.bind m f := rfl

theorem pure_eq {α : Type} (a : α) : (pure a : Exec α) = Exec.pure a := rfl

/-- The run on the error path: both server fields read as empty. -/
theorem run_server_missing {H : Type} (client : Config → Option H × Option String)
    (d : ResourceData) (h1 : d.Get "vsphere_server" = .str "")
    (h2 : d.Get "vcenter_server" = .str "") :
    runConfigure client d =
      ({ reads := [("vsphere_server", .TypeString), ("vcenter_server", .TypeString)],
         calls := [] },
       some (none, some serverMissingMessage)) := by
  simp [runConfigure, providerConfigure, bind_eq, pure_eq, Exec.bind, Exec.pure, getString,
    Value.assertString, h1, h2]

/-- The run when the primary server field is a non-empty string and the six
remaining fields have the asserted types. -/
theorem run_primary {H : Type} (client : Config → Option H × Option String)
    (d : ResourceData) (s u p r q : String) (i g : Bool)
    (hs : d.Get "vsphere_server" = .str s) (hne : s ≠ "")
    (hu : d.Get "user" = .str u) (hp : d.Get "password" = .str p)
    (hi : d.Get "allow_unverified_ssl" = .bool i) (hg : d.Get "client_debug" = .bool g)
    (hr : d.Get "client_debug_path_run" = .str r) (hq : d.Get "client_debug_path" = .str q) :
    runConfigure client d =
      ({ reads := ("vsphere_server", .TypeString) :: restReads,
         calls := [{ User := u, Password := p, InsecureFlag := i, VSphereServer := s,
                     Debug := g, DebugPathRun := r, DebugPath := q }] },
       some (client { User := u, Password := p, InsecureFlag := i, VSphereServer := s,
                      Debug := g, DebugPathRun := r, DebugPath := q })) := by
  simp [runConfigure, providerConfigure, bind_eq, pure_eq, Exec.bind, Exec.pure, getString,
    getBool, callClient, Value.assertString, Value.assertBool, restReads, hs, hne, hu, hp, hi,
    hg, hr, hq]

/-- The run when the primary server field is empty, the deprecated one is a
non-empty string and the six remaining fields have the asserted types. -/
theorem run_fallback {H : Type} (client : Config → Option H × Option String)
    (d : ResourceData) (s u p r q : String) (i g : Bool)
    (h1 : d.Get "vsphere_server" = .str "") (hs : d.Get "vcenter_server" = .str s)
    (hne : s ≠ "")
    (hu : d.Get "user" = .str u) (hp : d.Get "password" = .str p)
    (hi : d.Get "allow_unverified_ssl" = .bool i) (hg : d.Get "client_debug" = .bool g)
    (hr : d.Get "client_debug_path_run" = .str r) (hq : d.Get "client_debug_path" = .str q) :
    runConfigure client d =
      ({ reads := ("vsphere_server", .TypeString) :: ("vcenter_server", .TypeString) :: restReads,
         calls := [{ User := u, Password := p, InsecureFlag := i, VSphereServer := s,
                     Debug := g, DebugPathRun := r, DebugPath := q }] },
       some (client { User := u, Password := p, InsecureFlag := i, VSphereServer := s,
                      Debug := g, DebugPathRun := r, DebugPath := q })) := by
  simp [runConfigure, providerConfigure, bind_eq, pure_eq, Exec.bind, Exec.pure, getString,
    getBool, callClient, Value.assertString, Value.assertBool, restReads, h1, hs, hne, hu, hp,
    hi, hg, hr, hq]

/-- A value of declared type `TypeString` is a string. -/
theorem hasType_string {v : Value} (h : v.hasType .TypeString = true) : ∃ s, v = .str s := by
  cases v <;> simp_all [Value.hasType]

/-- A value of declared type `TypeBool` is a boolean. -/
theorem hasType_bool {v : Value} (h : v.hasType .TypeBool = true) : ∃ b, v = .bool b := by
  cases v <;> simp_all [Value.hasType]

/-- What a well-typed reader returns for the eight declared fields. -/
theorem WellTyped.fields {d : ResourceData} (h : WellTyped d) :
    ∃ (s1 s2 u p r q : String) (i g : Bool),
      d.Get "vsphere_server" = .str s1 ∧ d.Get "vcenter_server" = .str s2 ∧
      d.Get "user" = .str u ∧ d.Get "password" = .str p ∧
      d.Get "allow_unverified_ssl" = .bool i ∧ d.Get "client_debug" = .bool g ∧
      d.Get "client_debug_path_run" = .str r ∧ d.Get "client_debug_path" = .str q := by
  simp only [WellTyped, Provider, List.forall_mem_cons, List.not_mem_nil, false_imp_iff,
    implies_true, and_true] at h
  obtain ⟨hu, hp, h1, hi, h2, hg, hr, hq⟩ := h
  obtain ⟨u, hu⟩ := hasType_string hu
  obtain ⟨p, hp⟩ := hasType_string hp
  obtain ⟨s1, h1⟩ := hasType_string h1
  obtain ⟨i, hi⟩ := hasType_bool hi
  obtain ⟨s2, h2⟩ := hasType_string h2
  obtain ⟨g, hg⟩ := hasType_bool hg
  obtain ⟨r, hr⟩ := hasType_string hr
  obtain ⟨q, hq⟩ := hasType_string hq
  exact ⟨s1, s2, u, p, r, q, i, g, h1, h2, hu, hp, hi, hg, hr, hq⟩

/-- The sample configurations are well typed. -/
theorem sampleData_wellTyped (a b : String) : WellTyped (sampleData a b) := by
  simp [WellTyped, Provider, sampleData, ResourceData.ofList, List.lookup, Value.hasType]

/-! ## Invariants of the trace -/

theorem preserves_pure {α : Type} (I : Trace → Prop) (a : α) : Preserves I (Exec.pure a) :=
  fun _ h => h

theorem preserves_bind {α β : Type} (I : Trace → Prop) (m : Exec α) (f : α → Exec β)
    (hm : Preserves I m) (hf : ∀ a, Preserves I (f a)) : Preserves I (Exec.bind m f) := by
  intro t ht
  have h1 := hm t ht
  unfold Exec.bind
  rcases hmt : m t with ⟨t1, _ | a⟩
  · simpa [hmt] using h1
  · rw [hmt] at h1
    exact hf a t1 h1

theorem getString_calls (d : ResourceData) (k : String) :
    Preserves CallsHaveServer (getString d k) :=
  fun _ h => h

theorem getBool_calls (d : ResourceData) (k : String) :
    Preserves CallsHaveServer (getBool d k) :=
  fun _ h => h

theorem callClient_calls {H : Type} (client : Config → Option H × Option String)
    (config : Config) (h : config.VSphereServer ≠ "") :
    Preserves CallsHaveServer (callClient client config) := by
  intro t ht cfg hcfg
  simp only [callClient, List.mem_append, List.mem_singleton] at hcfg
  rcases hcfg with hc | hc
  · exact ht cfg hc
  · rw [hc]; exact h

theorem providerConfigure_calls {H : Type} (client : Config → Option H × Option String)
    (d : ResourceData) : Preserves CallsHaveServer (providerConfigure client d) := by
  unfold providerConfigure
  simp only [bind_eq, pure_eq]
  refine preserves_bind _ _ _ (getString_calls d _) fun s1 => ?_
  split <;>
    refine preserves_bind _ _ _
      (by first | exact getString_calls d _ | exact preserves_pure _ _) fun server => ?_ <;>
    split <;> try exact preserves_pure _ _
  all_goals
    rename_i hne
    refine preserves_bind _ _ _ (getString_calls d _) fun u => ?_
    refine preserves_bind _ _ _ (getString_calls d _) fun p => ?_
    refine preserves_bind _ _ _ (getBool_calls d _) fun i => ?_
    refine preserves_bind _ _ _ (getBool_calls d _) fun g => ?_
    refine preserves_bind _ _ _ (getString_calls d _) fun r => ?_
    refine preserves_bind _ _ _ (getString_calls d _) fun q => ?_
    exact callClient_calls client _ hne

theorem getString_reads (d : ResourceData) (k : String) (sch : Schema)
    (hk : schemaOf k = some sch) (hT : sch.Type_ = .TypeString) :
    Preserves ReadsDeclared (getString d k) := by
  intro t ht r hr
  simp only [getString, List.mem_append, List.mem_singleton] at hr
  rcases hr with hr | hr
  · exact ht r hr
  · subst hr; exact ⟨sch, hk, hT⟩

theorem getBool_reads (d : ResourceData) (k : String) (sch : Schema)
    (hk : schemaOf k = some sch) (hT : sch.Type_ = .TypeBool) :
    Preserves ReadsDeclared (getBool d k) := by
  intro t ht r hr
  simp only [getBool, List.mem_append, List.mem_singleton] at hr
  rcases hr with hr | hr
  · exact ht r hr
  · subst hr; exact ⟨sch, hk, hT⟩

theorem callClient_reads {H : Type} (client : Config → Option H × Option String)
    (config : Config) : Preserves ReadsDeclared (callClient client config) :=
  fun _ h => h

theorem providerConfigure_reads {H : Type} (client : Config → Option H × Option String)
    (d : ResourceData) : Preserves ReadsDeclared (providerConfigure client d) := by
  unfold providerConfigure
  simp only [bind_eq, pure_eq]
  refine preserves_bind _ _ _ (getString_reads d _ _ rfl rfl) fun s1 => ?_
  split <;>
    refine preserves_bind _ _ _
      (by first | exact getString_reads d _ _ rfl rfl | exact preserves_pure _ _)
      fun server => ?_ <;>
    split <;> try exact preserves_pure _ _
  all_goals
    refine preserves_bind _ _ _ (getString_reads d _ _ rfl rfl) fun u => ?_
    refine preserves_bind _ _ _ (getString_reads d _ _ rfl rfl) fun p => ?_
    refine preserves_bind _ _ _ (getBool_reads d _ _ rfl rfl) fun i => ?_
    refine preserves_bind _ _ _ (getBool_reads d _ _ rfl rfl) fun g => ?_
    refine preserves_bind _ _ _ (getString_reads d _ _ rfl rfl) fun r => ?_
    refine preserves_bind _ _ _ (getString_reads d _ _ rfl rfl) fun q => ?_
    exact callClient_reads client _

/-! ## The server fallback of `providerConfigure` -/

/-- Claim C1: when both `vsphere_server` and `vcenter_server` read as the
empty string, `providerConfigure` returns a nil handle with the error
"One of vsphere_server or [deprecated] vcenter_server must be provided.",
without invoking `Config.Client`, whatever the reader returns for the other
fields. -/
theorem providerConfigure_both_empty_fails {H : Type}
    (client : Config → Option H × Option String) (d : ResourceData)
    (h1 : d.Get "vsphere_server" = .str "") (h2 : d.Get "vcenter_server" = .str "") :
    (runConfigure client d).2 =
        some (none,
          some "One of vsphere_server or [deprecated] vcenter_server must be provided.") ∧
      (runConfigure client d).1.calls = [] := by
  rw [run_server_missing client d h1 h2]
  exact ⟨rfl, rfl⟩

/-- The error path on a reader that declares nothing but two empty server
fields. -/
theorem providerConfigure_both_empty_fails_witness :
    (ResourceData.ofList [("vsphere_server", .str ""), ("vcenter_server", .str "")]).Get
        "vsphere_server" = .str "" ∧
      (ResourceData.ofList [("vsphere_server", .str ""), ("vcenter_server", .str "")]).Get
        "vcenter_server" = .str "" ∧
      (runConfigure sampleClient
          (ResourceData.ofList [("vsphere_server", .str ""), ("vcenter_server", .str "")])).2 =
        some (none,
          some "One of vsphere_server or [deprecated] vcenter_server must be provided.") ∧
      (runConfigure sampleClient
          (ResourceData.ofList [("vsphere_server", .str ""), ("vcenter_server", .str "")])).1.calls
        = [] :=
  ⟨by decide, by decide,
    providerConfigure_both_empty_fails sampleClient
      (ResourceData.ofList [("vsphere_server", .str ""), ("vcenter_server", .str "")])
      (by decide) (by decide)⟩

/-- Claim C2: when `vsphere_server` is a non-empty string, `Config.Client`
is invoked exactly once, on a `Config` whose `VSphereServer` is that value,
for every value of `vcenter_server`; the deprecated field is not even
read. -/
theorem providerConfigure_primary_precedence {H : Type}
    (client : Config → Option H × Option String) (d : ResourceData) (s : String)
    (hs : d.Get "vsphere_server" = .str s) (hne : s ≠ "") (hw : WellTyped d) :
    ∃ cfg : Config, cfg.VSphereServer = s ∧
      (runConfigure client d).1.calls = [cfg] ∧
      (runConfigure client d).2 = some (client cfg) ∧
      "vcenter_server" ∉ (runConfigure client d).1.reads.map Prod.fst := by
  obtain ⟨s1, s2, u, p, r, q, i, g, h1, -, hu, hp, hi, hg, hr, hq⟩ := hw.fields
  rw [run_primary client d s u p r q i g hs hne hu hp hi hg hr hq]
  exact ⟨_, rfl, rfl, rfl, by simp [restReads]⟩

/-- The primary field wins over a different, non-empty deprecated field. -/
theorem providerConfigure_primary_precedence_witness :
    (sampleData "vsphere.example.com" "vcenter.example.com").Get "vsphere_server" =
        .str "vsphere.example.com" ∧
      "vsphere.example.com" ≠ "" ∧
      WellTyped (sampleData "vsphere.example.com" "vcenter.example.com") ∧
      ∃ cfg : Config, cfg.VSphereServer = "vsphere.example.com" ∧
        (runConfigure sampleClient
          (sampleData "vsphere.example.com" "vcenter.example.com")).1.calls = [cfg] ∧
        (runConfigure sampleClient
          (sampleData "vsphere.example.com" "vcenter.example.com")).2 = some (sampleClient cfg) ∧
        "vcenter_server" ∉
          (runConfigure sampleClient
            (sampleData "vsphere.example.com" "vcenter.example.com")).1.reads.map Prod.fst :=
  ⟨by decide, by decide, sampleData_wellTyped _ _,
    providerConfigure_primary_precedence sampleClient
      (sampleData "vsphere.example.com" "vcenter.example.com") "vsphere.example.com"
      (by decide) (by decide) (sampleData_wellTyped _ _)⟩

/-- Claim C3: when `vsphere_server` is empty and `vcenter_server` is a
non-empty string, `providerConfigure` does not take its error return: it
invokes `Config.Client` exactly once, on a `Config` whose `VSphereServer` is
the `vcenter_server` value, and returns what that call returns. -/
theorem providerConfigure_deprecated_fallback {H : Type}
    (client : Config → Option H × Option String) (d : ResourceData) (s : String)
    (h1 : d.Get "vsphere_server" = .str "") (hs : d.Get "vcenter_server" = .str s)
    (hne : s ≠ "") (hw : WellTyped d) :
    ∃ cfg : Config, cfg.VSphereServer = s ∧
      (runConfigure client d).1.calls = [cfg] ∧
      (runConfigure client d).2 = some (client cfg) := by
  obtain ⟨s1, s2, u, p, r, q, i, g, -, -, hu, hp, hi, hg, hr, hq⟩ := hw.fields
  rw [run_fallback client d s u p r q i g h1 hs hne hu hp hi hg hr hq]
  exact ⟨_, rfl, rfl, rfl⟩

/-- The fallback on a configuration that gives only the deprecated field. -/
theorem providerConfigure_deprecated_fallback_witness :
    (sampleData "" "vcenter.example.com").Get "vsphere_server" = .str "" ∧
      (sampleData "" "vcenter.example.com").Get "vcenter_server" =
        .str "vcenter.example.com" ∧
      "vcenter.example.com" ≠ "" ∧
      WellTyped (sampleData "" "vcenter.example.com") ∧
      ∃ cfg : Config, cfg.VSphereServer = "vcenter.example.com" ∧
        (runConfigure sampleClient (sampleData "" "vcenter.example.com")).1.calls = [cfg] ∧
        (runConfigure sampleClient (sampleData "" "vcenter.example.com")).2 =
          some (sampleClient cfg) :=
  ⟨by decide, by decide, by decide, sampleData_wellTyped _ _,
    providerConfigure_deprecated_fallback sampleClient (sampleData "" "vcenter.example.com")
      "vcenter.example.com" (by decide) (by decide) (by decide) (sampleData_wellTyped _ _)⟩

/-- Claim C4: `providerConfigure` has one error path of its own. On a
well-typed reader it returns without invoking `Config.Client` if and only if
both server fields are empty, and then it returns its configuration error;
in every other case it invokes `Config.Client` once and returns exactly the
pair (handle, error) which that call returns. -/
theorem providerConfigure_single_error_path {H : Type}
    (client : Config → Option H × Option String) (d : ResourceData) (hw : WellTyped d) :
    (BothServersEmpty d ↔ (runConfigure client d).1.calls = []) ∧
      (BothServersEmpty d →
        (runConfigure client d).2 = some (none, some serverMissingMessage)) ∧
      (¬ BothServersEmpty d →
        ∃ cfg : Config, (runConfigure client d).1.calls = [cfg] ∧
          (runConfigure client d).2 = some (client cfg)) := by
  obtain ⟨s1, s2, u, p, r, q, i, g, h1, h2, hu, hp, hi, hg, hr, hq⟩ := hw.fields
  by_cases e1 : s1 = ""
  · subst e1
    by_cases e2 : s2 = ""
    · subst e2
      have hb : BothServersEmpty d := ⟨h1, h2⟩
      rw [run_server_missing client d h1 h2]
      exact ⟨⟨fun _ => rfl, fun _ => hb⟩, fun _ => rfl, fun hn => absurd hb hn⟩
    · have hb : ¬ BothServersEmpty d := by
        rintro ⟨-, h⟩
        rw [h2] at h
        exact e2 (Value.str.inj h)
      rw [run_fallback client d s2 u p r q i g h1 h2 e2 hu hp hi hg hr hq]
      exact ⟨⟨fun h => absurd h hb, fun h => by simp at h⟩, fun h => absurd h hb,
        fun _ => ⟨_, rfl, rfl⟩⟩
  · have hb : ¬ BothServersEmpty d := by
      rintro ⟨h, -⟩
      rw [h1] at h
      exact e1 (Value.str.inj h)
    rw [run_primary client d s1 u p r q i g h1 e1 hu hp hi hg hr hq]
    exact ⟨⟨fun h => absurd h hb, fun h => by simp at h⟩, fun h => absurd h hb,
      fun _ => ⟨_, rfl, rfl⟩⟩

/-- A login failure of the client library is returned as it is. -/
theorem providerConfigure_single_error_path_witness :
    WellTyped (sampleData "" "vcenter.example.com") ∧
      (BothServersEmpty (sampleData "" "vcenter.example.com") ↔
        (runConfigure failingClient (sampleData "" "vcenter.example.com")).1.calls = []) ∧
      (BothServersEmpty (sampleData "" "vcenter.example.com") →
        (runConfigure failingClient (sampleData "" "vcenter.example.com")).2 =
          some (none, some serverMissingMessage)) ∧
      (¬ BothServersEmpty (sampleData "" "vcenter.example.com") →
        ∃ cfg : Config,
          (runConfigure failingClient (sampleData "" "vcenter.example.com")).1.calls = [cfg] ∧
          (runConfigure failingClient (sampleData "" "vcenter.example.com")).2 =
            some (failingClient cfg)) :=
  ⟨sampleData_wellTyped _ _,
    providerConfigure_single_error_path failingClient (sampleData "" "vcenter.example.com")
      (sampleData_wellTyped _ _)⟩

/-- Claim C5: in every run of `providerConfigure`, on every reader, each
`Config` on which `Config.Client` is invoked has a non-empty
`VSphereServer`. -/
theorem providerConfigure_client_server_nonempty {H : Type}
    (client : Config → Option H × Option String) (d : ResourceData) :
    ∀ cfg ∈ (runConfigure client d).1.calls, cfg.VSphereServer ≠ "" :=
  providerConfigure_calls client d {} (fun _ h => absurd h (List.not_mem_nil _))

/-- The invariant on a run that does invoke `Config.Client`. -/
theorem providerConfigure_client_server_nonempty_witness :
    sampleConfig "vcenter.example.com" ∈
        (runConfigure sampleClient (sampleData "" "vcenter.example.com")).1.calls ∧
      (sampleConfig "vcenter.example.com").VSphereServer ≠ "" :=
  have hmem : sampleConfig "vcenter.example.com" ∈
      (runConfigure sampleClient (sampleData "" "vcenter.example.com")).1.calls := by
    rw [run_fallback sampleClient (sampleData "" "vcenter.example.com") "vcenter.example.com"
      "root" "secret" "/tmp/run" "/tmp/debug" true false (by decide) (by decide) (by decide)
      (by decide) (by decide) (by decide) (by decide) (by decide) (by decide)]
    exact List.mem_singleton.mpr rfl
  ⟨hmem,
    providerConfigure_client_server_nonempty sampleClient
      (sampleData "" "vcenter.example.com") _ hmem⟩

/-- Claim C6: when the resolved server (the primary field, or the deprecated
one when the primary is empty) is non-empty, the one `Config` handed to
`Config.Client` has `User`, `Password`, `InsecureFlag`, `Debug`,
`DebugPathRun` and `DebugPath` equal to what the reader returns for `user`,
`password`, `allow_unverified_ssl`, `client_debug`, `client_debug_path_run`
and `client_debug_path`, and `VSphereServer` equal to the resolved server. -/
theorem providerConfigure_config_fields {H : Type}
    (client : Config → Option H × Option String) (d : ResourceData)
    (s1 s2 u p r q : String) (i g : Bool)
    (h1 : d.Get "vsphere_server" = .str s1) (h2 : d.Get "vcenter_server" = .str s2)
    (hu : d.Get "user" = .str u) (hp : d.Get "password" = .str p)
    (hi : d.Get "allow_unverified_ssl" = .bool i) (hg : d.Get "client_debug" = .bool g)
    (hr : d.Get "client_debug_path_run" = .str r) (hq : d.Get "client_debug_path" = .str q)
    (hne : (if s1 = "" then s2 else s1) ≠ "") :
    (runConfigure client d).1.calls =
        [{ User := u, Password := p, InsecureFlag := i,
           VSphereServer := (if s1 = "" then s2 else s1),
           Debug := g, DebugPathRun := r, DebugPath := q }] ∧
      (runConfigure client d).2 =
        some (client { User := u, Password := p, InsecureFlag := i,
                       VSphereServer := (if s1 = "" then s2 else s1),
                       Debug := g, DebugPathRun := r, DebugPath := q }) := by
  by_cases e1 : s1 = ""
  · subst e1
    simp only [if_true] at hne ⊢
    rw [run_fallback client d s2 u p r q i g h1 h2 hne hu hp hi hg hr hq]
    exact ⟨rfl, rfl⟩
  · simp only [e1, if_false] at hne ⊢
    rw [run_primary client d s1 u p r q i g h1 e1 hu hp hi hg hr hq]
    exact ⟨rfl, rfl⟩

/-- The assembled `Config` of a sample configuration, the two debug paths
being different strings. -/
theorem providerConfigure_config_fields_witness :
    (runConfigure sampleClient (sampleData "vsphere.example.com" "")).1.calls =
        [{ User := "root", Password := "secret", InsecureFlag := true,
           VSphereServer := (if "vsphere.example.com" = "" then "" else "vsphere.example.com"),
           Debug := false, DebugPathRun := "/tmp/run", DebugPath := "/tmp/debug" }] ∧
      (runConfigure sampleClient (sampleData "vsphere.example.com" "")).2 =
        some (sampleClient
          { User := "root", Password := "secret", InsecureFlag := true,
            VSphereServer := (if "vsphere.example.com" = "" then "" else "vsphere.example.com"),
            Debug := false, DebugPathRun := "/tmp/run", DebugPath := "/tmp/debug" }) :=
  providerConfigure_config_fields sampleClient (sampleData "vsphere.example.com" "")
    "vsphere.example.com" "" "root" "secret" "/tmp/run" "/tmp/debug" true false
    (by decide) (by decide) (by decide) (by decide) (by decide) (by decide) (by decide)
    (by decide) (by decide)

/-- Claim C10: the emptiness test of the fallback is equality with the
empty string. With `vsphere_server` a single space and `vcenter_server` a
non-empty string, `providerConfigure` does not take its error return, hands
`Config.Client` a `Config` whose `VSphereServer` is the single space, and
does not read the deprecated field. -/
theorem providerConfigure_whitespace_server {H : Type}
    (client : Config → Option H × Option String) :
    (sampleData " " "vcenter.example.com").Get "vcenter_server" =
        .str "vcenter.example.com" ∧
      (runConfigure client (sampleData " " "vcenter.example.com")).1.calls =
        [{ User := "root", Password := "secret", InsecureFlag := true, VSphereServer := " ",
           Debug := false, DebugPathRun := "/tmp/run", DebugPath := "/tmp/debug" }] ∧
      (runConfigure client (sampleData " " "vcenter.example.com")).2 =
        some (client { User := "root", Password := "secret", InsecureFlag := true,
                       VSphereServer := " ", Debug := false, DebugPathRun := "/tmp/run",
                       DebugPath := "/tmp/debug" }) ∧
      "vcenter_server" ∉
        (runConfigure client (sampleData " " "vcenter.example.com")).1.reads.map Prod.fst := by
  rw [run_primary client (sampleData " " "vcenter.example.com") " " "root" "secret" "/tmp/run"
    "/tmp/debug" true false (by decide) (by decide) (by decide) (by decide) (by decide)
    (by decide) (by decide) (by decide)]
  exact ⟨by decide, rfl, rfl, by simp [restReads]⟩

/-! ## The schema declared by `Provider` -/

/-- Claim C7: the schema has exactly eight fields and each takes its
default from an environment variable, given here as the pair (variable
consulted, fallback value) of its default function: `user` from
`VSPHERE_USER`, `password` from `VSPHERE_PASSWORD`, `vsphere_server` from
`VSPHERE_SERVER` and `vcenter_server` from `VSPHERE_VCENTER`, each with
fallback `nil`; `allow_unverified_ssl` from `VSPHERE_ALLOW_UNVERIFIED_SSL`
and `client_debug` from `VSPHERE_CLIENT_DEBUG`, with fallback `false`;
`client_debug_path_run` from `VSPHERE_CLIENT_DEBUG_PATH_RUN` and
`client_debug_path` from `VSPHERE_CLIENT_DEBUG_PATH`, with fallback the empty
string. The eight field names are pairwise distinct and so are the eight
variable names. -/
theorem provider_schema_env_defaults :
    Provider.Schema.map
        (fun p => (p.1, p.2.DefaultFunc.map (fun f => (f.k, f.dv)))) =
        [("user", some ("VSPHERE_USER", Value.nil)),
         ("password", some ("VSPHERE_PASSWORD", Value.nil)),
         ("vsphere_server", some ("VSPHERE_SERVER", Value.nil)),
         ("allow_unverified_ssl", some ("VSPHERE_ALLOW_UNVERIFIED_SSL", Value.bool false)),
         ("vcenter_server", some ("VSPHERE_VCENTER", Value.nil)),
         ("client_debug", some ("VSPHERE_CLIENT_DEBUG", Value.bool false)),
         ("client_debug_path_run", some ("VSPHERE_CLIENT_DEBUG_PATH_RUN", Value.str "")),
         ("client_debug_path", some ("VSPHERE_CLIENT_DEBUG_PATH", Value.str ""))] ∧
      (Provider.Schema.map Prod.fst).Nodup ∧
      Provider.Schema.filterMap (fun p => p.2.DefaultFunc.map SchemaDefaultFunc.k) =
        ["VSPHERE_USER", "VSPHERE_PASSWORD", "VSPHERE_SERVER", "VSPHERE_ALLOW_UNVERIFIED_SSL",
         "VSPHERE_VCENTER", "VSPHERE_CLIENT_DEBUG", "VSPHERE_CLIENT_DEBUG_PATH_RUN",
         "VSPHERE_CLIENT_DEBUG_PATH"] ∧
      (Provider.Schema.filterMap (fun p => p.2.DefaultFunc.map SchemaDefaultFunc.k)).Nodup := by
  refine ⟨rfl, ?_, rfl, ?_⟩
  · simp [Provider]
  · simp [Provider, EnvDefaultFunc]

/-- Claim C8: in the schema of `Provider` the fields marked `Required` are
exactly `user` and `password`; `vsphere_server` and `vcenter_server` are
declared, `Optional` and not `Required`; `vcenter_server` is the only field
with a deprecation notice, and the notice names `vsphere_server`. -/
theorem provider_schema_required_optional_deprecated :
    (∀ p ∈ Provider.Schema, (p.2.Required = true ↔ p.1 = "user" ∨ p.1 = "password")) ∧
      (schemaOf "user").map Schema.Required = some true ∧
      (schemaOf "password").map Schema.Required = some true ∧
      (schemaOf "vsphere_server").map (fun sch => (sch.Optional, sch.Required)) =
        some (true, false) ∧
      (schemaOf "vcenter_server").map (fun sch => (sch.Optional, sch.Required)) =
        some (true, false) ∧
      (∀ p ∈ Provider.Schema, (p.2.Deprecated ≠ "" ↔ p.1 = "vcenter_server")) ∧
      (schemaOf "vcenter_server").map Schema.Deprecated =
        some ("This field has been renamed to " ++ "vsphere_server" ++ ".") := by
  refine ⟨?_, rfl, rfl, rfl, rfl, ?_, by decide⟩
  · simp [Provider]
  · simp [Provider]

/-! ## The reads of `providerConfigure` against the schema -/

/-- Claim C9: in every run of `providerConfigure`, every read
`d.Get(k).(T)` is of a key `k` of the schema of `Provider` whose declared
type is the asserted `T`; on a well-typed reader no type assertion fails,
so the run returns; and conversely a single run (empty primary server,
non-empty deprecated one) reads every declared field at its declared
type. -/
theorem providerConfigure_reads_match_schema {H : Type}
    (client : Config → Option H × Option String) :
    (∀ d : ResourceData, ∀ r ∈ (runConfigure client d).1.reads,
        ∃ sch, schemaOf r.1 = some sch ∧ sch.Type_ = r.2) ∧
      (∀ d : ResourceData, WellTyped d → ∃ res, (runConfigure client d).2 = some res) ∧
      (WellTyped (sampleData "" "vcenter.example.com") ∧
        ∀ p ∈ Provider.Schema,
          (p.1, p.2.Type_) ∈
            (runConfigure client (sampleData "" "vcenter.example.com")).1.reads) := by
  refine ⟨fun d => ?_, fun d hw => ?_, sampleData_wellTyped _ _, ?_⟩
  · exact providerConfigure_reads client d {} (fun _ h => absurd h (List.not_mem_nil _))
  · obtain ⟨s1, s2, u, p, r, q, i, g, h1, h2, hu, hp, hi, hg, hr, hq⟩ := hw.fields
    by_cases e1 : s1 = ""
    · subst e1
      by_cases e2 : s2 = ""
      · subst e2
        exact ⟨_, (congrArg Prod.snd (run_server_missing client d h1 h2))⟩
      · exact ⟨_, (congrArg Prod.snd
          (run_fallback client d s2 u p r q i g h1 h2 e2 hu hp hi hg hr hq))⟩
    · exact ⟨_, (congrArg Prod.snd
        (run_primary client d s1 u p r q i g h1 e1 hu hp hi hg hr hq))⟩
  · rw [run_fallback client (sampleData "" "vcenter.example.com") "vcenter.example.com"
      "root" "secret" "/tmp/run" "/tmp/debug" true false (by decide) (by decide) (by decide)
      (by decide) (by decide) (by decide) (by decide) (by decide) (by decide)]
    simp [Provider, restReads]

/-- A well-typed sample configuration on which the run returns. -/
theorem providerConfigure_reads_match_schema_witness :
    WellTyped (sampleData "vsphere.example.com" "") ∧
      ∃ res, (runConfigure sampleClient (sampleData "vsphere.example.com" "")).2 = some res :=
  ⟨sampleData_wellTyped _ _,
    (providerConfigure_reads_match_schema sampleClient).2.1 _ (sampleData_wellTyped _ _)⟩

end vsphere
